import Mathlib

/-!
Shallow embedding of the InfraMap monitoring subsystem
(`internal/monitoring/ping.go`, `internal/monitoring/ssh_manager.go`,
`internal/model/types.go`, `internal/sshutil/check.go`).

Time is modelled abstractly: timestamps are integers in nanoseconds and
durations are `time.Duration` values, i.e. nanosecond counts in a signed
64-bit integer — the conversion `time.Duration(interval) * time.Second`
in `intervalForNode` wraps modulo 2^64, which `wrap64` reproduces
exactly. Go maps are modelled as functions `String → Option α`; the
per-cycle `results` map, whose keys are produced in node order, as an
association list. I/O (the ping subprocess, the SSH dial) is abstracted
into oracle parameters; everything the code computes around the I/O is
embedded exactly.
-/

namespace InfraMap

/-! ### Data model (`internal/model/types.go`) -/

/-- `model.MonitoringSettings`. `IntervalSec` is a Go `int`, so `Int`. -/
structure MonitoringSettings where
  enabled : Bool
  intervalSec : Int
  showStatus : Bool
deriving DecidableEq, Repr

/-- `model.Node`. `PingEnabled *bool` is `Option Bool` (nil = `none`). -/
structure Node where
  id : String
  type : String
  ipPrivate : String
  ipTailscale : String
  ipPublic : String
  pingEnabled : Option Bool
  pingIntervalSec : Int
  connectEnabled : Bool
deriving DecidableEq, Repr

/-- `model.BoardMeta`. -/
structure BoardMeta where
  monitoring : MonitoringSettings
deriving DecidableEq, Repr

/-- `model.Board`. -/
structure Board where
  meta : BoardMeta
  nodes : List Node
deriving DecidableEq, Repr

/-- `model.PingResult`. `LastChecked` is a UTC timestamp, modelled as an
integer number of nanoseconds. -/
structure PingResult where
  online : Bool
  lastChecked : Int
  rttMs : Int
  target : String
  error : String
deriving DecidableEq, Repr

/-- `model.SSHStatus`. -/
structure SSHStatus where
  online : Bool
  lastChecked : Int
  error : String
deriving DecidableEq, Repr

/-- `model.DeviceSettings` (the fields the liveness path reads). -/
structure DeviceSettings where
  os : String
  host : String
  port : Int
  authMethod : String
  username : String
  password : String
  privateKey : String
  privateKeyPassphrase : String
  connectEnabled : Bool
  linkSpeedMbps : Int
deriving DecidableEq, Repr

/-! ### Settings sanitization (`ping.go:107-126`) -/

/-- `defaultMonitoringSettings`: `{Enabled: false, IntervalSec: 30, ShowStatus: false}`. -/
def defaultMonitoringSettings : MonitoringSettings :=
  { enabled := false, intervalSec := 30, showStatus := false }

/-- `sanitizeMonitoringSettings` (`ping.go:115-126`): a zero interval
restores the default interval (and default show-status when neither
enabled nor show-status was set); an interval outside [5, 3600] is reset
to the default interval. -/
def sanitizeMonitoringSettings (settings : MonitoringSettings) : MonitoringSettings :=
  let settings :=
    if settings.intervalSec = 0 then
      let settings :=
        if !settings.enabled && !settings.showStatus then
          { settings with showStatus := defaultMonitoringSettings.showStatus }
        else settings
      { settings with intervalSec := defaultMonitoringSettings.intervalSec }
    else settings
  if settings.intervalSec < 5 || settings.intervalSec > 3600 then
    { settings with intervalSec := defaultMonitoringSettings.intervalSec }
  else settings

/-! ### Per-node helpers (`ping.go:320-361`) -/

/-- `isPingEnabled` (`ping.go:343-348`): nil pointer counts as disabled. -/
def isPingEnabled (node : Node) : Bool :=
  match node.pingEnabled with
  | none => false
  | some b => b

/-- `anyPingEnabled` (`ping.go:334-341`). -/
def anyPingEnabled (nodes : List Node) : Bool :=
  nodes.any isPingEnabled

/-- `pickTarget` (`ping.go:350-361`): public, then private, then tailscale. -/
def pickTarget (node : Node) : String :=
  if node.ipPublic ≠ "" then node.ipPublic
  else if node.ipPrivate ≠ "" then node.ipPrivate
  else if node.ipTailscale ≠ "" then node.ipTailscale
  else ""

/-- Signed 64-bit wrap-around: the value of an `int64` arithmetic
result in Go. -/
def wrap64 (x : Int) : Int :=
  (x + 2 ^ 63) % 2 ^ 64 - 2 ^ 63

/-- `intervalForNode` (`ping.go:320-332`), returning a `time.Duration`
(nanoseconds): the seconds cascade — device override when positive, else
the fallback (policy interval), else the default 30 — followed by
`time.Duration(interval) * time.Second`, an `int64` multiply by 10^9
that wraps for interval ≥ 9223372037 seconds. -/
def intervalForNode (node : Node) (fallback : Int) : Int :=
  let interval := node.pingIntervalSec
  let interval := if interval ≤ 0 then fallback else interval
  let interval := if interval ≤ 0 then defaultMonitoringSettings.intervalSec else interval
  if interval ≤ 0 then 0 else wrap64 (interval * 1000000000)

/-- The effective interval in seconds as the spec describes it: device
override if positive, else policy interval if positive, else 30. Equal
to `intervalForNode`'s seconds cascade before the `time.Duration`
conversion. -/
def effectiveIntervalSec (node : Node) (fallback : Int) : Int :=
  if 0 < node.pingIntervalSec then node.pingIntervalSec
  else if 0 < fallback then fallback else 30

/-! ### PingManager mutation entry points (`ping.go:128-153`) -/

/-- The `settings`/`nodes` fields of `PingManager` that the mutation
entry points read and write (the mutex is the sequential embedding). -/
structure PingManagerState where
  settings : MonitoringSettings
  nodes : List Node
deriving DecidableEq, Repr

/-- `PingManager.UpdateFromBoard` (`ping.go:128-136`), minus the wake signal. -/
def updateFromBoard (_st : PingManagerState) (board : Board) : PingManagerState :=
  let settings := sanitizeMonitoringSettings board.meta.monitoring
  { settings := { settings with enabled := anyPingEnabled board.nodes },
    nodes := board.nodes }

/-- `PingManager.UpdateNodes` (`ping.go:138-144`), minus the wake signal. -/
def updateNodes (st : PingManagerState) (nodes : List Node) : PingManagerState :=
  { nodes := nodes,
    settings := { st.settings with enabled := anyPingEnabled nodes } }

/-- `PingManager.SetSettings` (`ping.go:146-153`), minus the wake signal. -/
def setSettings (st : PingManagerState) (settings : MonitoringSettings) : PingManagerState :=
  let settings := sanitizeMonitoringSettings settings
  { st with settings := { settings with enabled := anyPingEnabled st.nodes } }

/-! ### Coalesced wake signal (`ping.go:171-176`, `ssh_manager.go:54-59`)

`signalUpdate` does a `select` with a `default` branch on a buffered
channel of capacity 1: the slot either already holds the one pending
signal (send not ready, `default` taken, no-op) or is empty (signal
stored). The slot is the `Bool`; the function never blocks because it is
total. -/

/-- `signalUpdate`: post a wake into the single-slot channel. -/
def signalUpdate (pending : Bool) : Bool :=
  if pending then pending else true

/-! ### RTT extraction (`ping.go:15,49-59`)

`pingRTTRegex = time[=<]([0-9.]+)\s*ms` and
`parseRTT = round(ParseFloat(first capture))`, 0 when the pattern is
absent or the number unparseable. The regex is embedded directly: for
this pattern, RE2 leftmost-first matching coincides with "first position
where the literal `time`, a `=` or `<`, a maximal nonempty run of
`[0-9.]`, optional whitespace and the literal `ms` line up" (a shorter
run of `[0-9.]+` can never rescue a failed match, because the character
it gives back is a digit or dot, which matches neither `\s` nor `m`).
The numeric parse is exact rational arithmetic: a string of digits with
at most one dot and at least one digit denotes n/10^k, and Go's
`int(value + 0.5)` is ⌊(2n + 10^k)/(2·10^k)⌋. -/

/-- The `[0-9.]` character class. -/
def isDigitDot (c : Char) : Bool :=
  c.isDigit || c = '.'

/-- Go regexp `\s`: `[\t\n\f\r ]`. -/
def isGoSpace (c : Char) : Bool :=
  c = '\t' || c = '\n' || c = '\x0c' || c = '\r' || c = ' '

/-- Match `pingRTTRegex` anchored at the head of the character list,
returning the `([0-9.]+)` capture. -/
def matchRTTAt : List Char → Option (List Char)
  | 't' :: 'i' :: 'm' :: 'e' :: c :: rest =>
    if c = '=' || c = '<' then
      let digits := rest.takeWhile isDigitDot
      if digits.isEmpty then none
      else
        match (rest.dropWhile isDigitDot).dropWhile isGoSpace with
        | 'm' :: 's' :: _ => some digits
        | _ => none
    else none
  | _ => none

/-- `FindStringSubmatch`: the capture of the leftmost match. -/
def findRTTCapture : List Char → Option (List Char)
  | [] => none
  | c :: rest =>
    match matchRTTAt (c :: rest) with
    | some digits => some digits
    | none => findRTTCapture rest

/-- Fold a digit list into a natural number. -/
def digitsToNat (cs : List Char) : Nat :=
  cs.foldl (fun acc c => acc * 10 + (c.toNat - '0'.toNat)) 0

/-- `strconv.ParseFloat` restricted to `[0-9.]+` strings: valid iff at
most one dot and at least one digit; the value is `n / 10 ^ k`. -/
def parseDecimal (cs : List Char) : Option (Nat × Nat) :=
  if cs.all isDigitDot && cs.count '.' ≤ 1 && cs.any Char.isDigit then
    let intPart := cs.takeWhile (fun c => c ≠ '.')
    let fracPart := (cs.dropWhile (fun c => c ≠ '.')).drop 1
    some (digitsToNat (intPart ++ fracPart), fracPart.length)
  else none

/-- `parseRTT` (`ping.go:49-59`): extract, parse, round to nearest. -/
def parseRTT (output : String) : Int :=
  match findRTTCapture output.data with
  | none => 0
  | some capture =>
    match parseDecimal capture with
    | none => 0
    | some (n, k) => ((2 * n + 10 ^ k) / (2 * 10 ^ k) : Nat)

/-! ### Reachability probe (`ping.go:17-47`)

The subprocess run is abstracted by three oracle inputs: whether the
2-second context deadline expired (`timedOut`, `ctx.Err() ==
DeadlineExceeded`), whether `CombinedOutput` returned an error
(`cmdErr`), and the combined output text. Everything else is the code. -/

/-- `pingTarget` (`ping.go:17-47`). `start` is the cycle's `time.Now()`. -/
def pingTarget (start : Int) (target : String) (timedOut cmdErr : Bool)
    (output : String) : PingResult :=
  let result : PingResult :=
    { online := false, lastChecked := start, rttMs := 0, target := target, error := "" }
  if timedOut then { result with error := "timeout" }
  else
    let result :=
      if cmdErr then { result with error := "unreachable" }
      else { result with online := true }
    let rtt := parseRTT output
    if rtt > 0 then { result with rttMs := rtt } else result

/-! ### Reachability probe cycle (`ping.go:229-300`) -/

/-- Result caches (`m.status`): a Go map as a function into `Option`. -/
def StatusMap (α : Type) : Type := String → Option α

/-- The per-node control flow of the fan-out loop (`ping.go:238-262`):
skip segments and disabled nodes, skip throttled nodes, synthesize
"no ip" when no address is usable, otherwise probe the picked target. -/
inductive CycleAction where
  | skip
  | noIp
  | probe (target : String)
deriving DecidableEq, Repr

/-- The throttle test (`ping.go:242-249`): a positive converted
interval, a prior cached result, and `time.Since(lastChecked) <
interval`, both sides nanosecond durations. A wrapped-negative interval
(override ≥ 9223372037 s) fails the `interval > 0` guard and disables
the throttle. -/
def isThrottled (snapshot : StatusMap PingResult) (node : Node)
    (policyInterval : Int) (now : Int) : Bool :=
  let interval := intervalForNode node policyInterval
  interval > 0 &&
    match snapshot node.id with
    | some last => now - last.lastChecked < interval
    | none => false

/-- What the fan-out loop decides for one node (`ping.go:238-262`). -/
def cycleAction (snapshot : StatusMap PingResult) (node : Node)
    (policyInterval : Int) (now : Int) : CycleAction :=
  if node.type = "network" || !isPingEnabled node then .skip
  else if isThrottled snapshot node policyInterval now then .skip
  else if pickTarget node = "" then .noIp
  else .probe (pickTarget node)

/-- The synthesized result for an addressless node (`ping.go:253-258`). -/
def noIpResult (now : Int) : PingResult :=
  { online := false, lastChecked := now, rttMs := 0, target := "", error := "no ip" }

/-- The entry one node contributes to the cycle's `results` map, if any.
`probe` is the oracle for `pingTarget`'s subprocess run. -/
def nodeCycleResult (snapshot : StatusMap PingResult) (node : Node)
    (policyInterval : Int) (now : Int) (probe : String → PingResult) :
    Option PingResult :=
  match cycleAction snapshot node policyInterval now with
  | .skip => none
  | .noIp => some (noIpResult now)
  | .probe target => some (probe target)

/-- The log lines one node contributes (`ping.go:260`, `ping.go:273-278`):
one warning for the "no ip" synthesis, one info/warn line per probe. -/
def nodeCycleLogs (snapshot : StatusMap PingResult) (node : Node)
    (policyInterval : Int) (now : Int) (probe : String → PingResult) :
    List (String × String × String) :=
  match cycleAction snapshot node policyInterval now with
  | .skip => []
  | .noIp => [("warn", "ping", "ping skipped for " ++ node.id ++ ": no ip")]
  | .probe target =>
    let result := probe target
    [(if result.online then "info" else "warn", "ping",
      "ping " ++ node.id ++ " -> online=" ++ toString result.online ++
        " rtt=" ++ toString result.rttMs ++ "ms error=" ++ result.error)]

/-- The node-indexed association-list builder shared by both pollers'
fan-out loops: each node contributes `f node` under its id, skipped
nodes contribute nothing. -/
def resultsOf {α : Type} (f : Node → Option α) (nodes : List Node) :
    List (String × α) :=
  nodes.filterMap fun node => (f node).map fun result => (node.id, result)

/-- The cycle's `results` map (`ping.go:233-282`) as an association list
keyed by node id. -/
def cycleResults (snapshot : StatusMap PingResult) (nodes : List Node)
    (policyInterval : Int) (now : Int) (probe : String → PingResult) :
    List (String × PingResult) :=
  resultsOf (fun node => nodeCycleResult snapshot node policyInterval now probe)
    nodes

/-- The first half of the merge (`ping.go:291-293`,
`ssh_manager.go:106-108`): write every produced result over the cache. -/
def insertResults {α : Type} (status : StatusMap α)
    (results : List (String × α)) : StatusMap α :=
  fun id =>
    match results.lookup id with
    | some r => some r
    | none => status id

/-- The second half of the merge (`ping.go:294-298`,
`ssh_manager.go:109-113`): delete every cache entry whose id is not in
the cycle's node-id snapshot. -/
def pruneAbsent {α : Type} (status : StatusMap α) (ids : List String) :
    StatusMap α :=
  fun id => if ids.contains id then status id else none

/-- The whole merge step (`ping.go:283-299`, `ssh_manager.go:97-114`). -/
def mergeStatus {α : Type} (status : StatusMap α)
    (results : List (String × α)) (ids : List String) : StatusMap α :=
  pruneAbsent (insertResults status results) ids

/-- `PingManager.runPingCycle` (`ping.go:229-300`) as a cache transformer:
the cycle snapshots nodes, status and settings, fans out, and merges. -/
def runPingCycle (status : StatusMap PingResult) (nodes : List Node)
    (settings : MonitoringSettings) (now : Int)
    (probe : String → PingResult) : StatusMap PingResult :=
  mergeStatus status (cycleResults status nodes settings.intervalSec now probe)
    (nodes.map Node.id)

/-! ### Liveness (SSH) checks (`ssh_manager.go:74-150`)

The credential provider (`DeviceSettingsProvider.Get`) returns
`(settings, found, error)`; modelled as `Except String (Option
DeviceSettings)`. `sshutil.CheckConnection`'s network dial is abstracted
as an oracle `DeviceSettings → Except String Unit`; the host-fallback
logic around it (`ssh_manager.go:132-134`) is embedded. -/

/-- `SSHStatusManager.checkNode` (`ssh_manager.go:117-142`). -/
def checkNode (provider : Option (String → Except String (Option DeviceSettings)))
    (checkConnection : DeviceSettings → Except String Unit) (now : Int)
    (node : Node) : SSHStatus :=
  let status : SSHStatus := { online := false, lastChecked := now, error := "" }
  match provider with
  | none => { status with error := "settings provider missing" }
  | some get =>
    match get node.id with
    | .error e => { status with error := e }
    | .ok none => { status with error := "settings not found" }
    | .ok (some settings) =>
      let settings :=
        if settings.host = "" then { settings with host := pickTarget node }
        else settings
      match checkConnection settings with
      | .error e => { status with error := e }
      | .ok _ => { status with online := true }

/-- The `results` map of `SSHStatusManager.runCheck` (`ssh_manager.go:74-95`):
every non-segment, connect-enabled node is checked; nothing is throttled. -/
def runCheckResults (provider : Option (String → Except String (Option DeviceSettings)))
    (checkConnection : DeviceSettings → Except String Unit) (now : Int)
    (nodes : List Node) : List (String × SSHStatus) :=
  resultsOf (fun node =>
    if node.type = "network" || !node.connectEnabled then none
    else some (checkNode provider checkConnection now node)) nodes

/-- `SSHStatusManager.runCheck` (`ssh_manager.go:74-115`) as a cache
transformer. -/
def runCheck (status : StatusMap SSHStatus)
    (provider : Option (String → Except String (Option DeviceSettings)))
    (checkConnection : DeviceSettings → Except String Unit) (now : Int)
    (nodes : List Node) : StatusMap SSHStatus :=
  mergeStatus status (runCheckResults provider checkConnection now nodes)
    (nodes.map Node.id)

/-! ### Semaphore-bounded fan-out (`ping.go:236,264-280`, `ssh_manager.go:79,85-94`)

Each probe goroutine does `sem <- struct{}{}` (acquire; blocks unless
fewer than `cap` tokens are held), its I/O, then `<-sem` (release). The
interleaving of the goroutines of one cycle is modelled as a transition
system over the list of per-goroutine phases; "executing" = holding a
token. -/

/-- `sem := make(chan struct{}, 8)` in `runPingCycle` (`ping.go:236`). -/
def pingSemCap : Nat := 8

/-- `sem := make(chan struct{}, 6)` in `runCheck` (`ssh_manager.go:79`). -/
def sshSemCap : Nat := 6

/-- The phase of one probe goroutine: not yet acquired, holding the
semaphore (probing), or released. -/
inductive Phase where
  | pending
  | running
  | done
deriving DecidableEq, Repr

/-- How many goroutines hold a semaphore token. -/
def runningCount (ws : List Phase) : Nat :=
  ws.countP (fun w => w = Phase.running)

/-- One scheduler step of a cycle's fan-out: a pending goroutine may
acquire the semaphore only while fewer than `cap` tokens are held; a
running goroutine may finish its probe and release. -/
inductive SemStep (cap : Nat) : List Phase → List Phase → Prop where
  | acquire (ws : List Phase) (i : Nat) (h : ws.get? i = some Phase.pending)
      (hc : runningCount ws < cap) : SemStep cap ws (ws.set i Phase.running)
  | release (ws : List Phase) (i : Nat) (h : ws.get? i = some Phase.running) :
      SemStep cap ws (ws.set i Phase.done)

/-- States reachable from a fan-out of `n` goroutines, none started. -/
def SemReachable (cap n : Nat) (ws : List Phase) : Prop :=
  Relation.ReflTransGen (SemStep cap) (List.replicate n Phase.pending) ws

/-! ### Helper lemmas -/

lemma lookup_resultsOf_not_mem {α : Type} (f : Node → Option α)
    (nodes : List Node) (id : String) (h : id ∉ nodes.map Node.id) :
    (resultsOf f nodes).lookup id = none := by
  induction nodes with
  | nil => rfl
  | cons n t ih =>
    simp only [List.map_cons, List.mem_cons, not_or] at h
    obtain ⟨h1, h2⟩ := h
    simp only [resultsOf, List.filterMap_cons]
    cases hf : f n with
    | none => exact ih h2
    | some r =>
      have hb : (id == n.id) = false := by simpa using h1
      simp only [Option.map_some', List.lookup_cons, hb]
      exact ih h2

lemma lookup_resultsOf_mem {α : Type} (f : Node → Option α)
    (nodes : List Node) (node : Node) (hmem : node ∈ nodes)
    (hnodup : (nodes.map Node.id).Nodup) :
    (resultsOf f nodes).lookup node.id = f node := by
  induction nodes with
  | nil => cases hmem
  | cons n t ih =>
    simp only [List.map_cons, List.nodup_cons] at hnodup
    obtain ⟨hni, hnd⟩ := hnodup
    rcases List.mem_cons.mp hmem with heq | hmemt
    · subst heq
      simp only [resultsOf, List.filterMap_cons]
      cases hf : f node with
      | none =>
        rw [show (t.filterMap fun m => (f m).map fun r => (m.id, r)) =
          resultsOf f t from rfl]
        exact lookup_resultsOf_not_mem f t node.id hni
      | some r => simp [List.lookup_cons]
    · have hne : node.id ≠ n.id := by
        intro h
        exact hni (h ▸ List.mem_map_of_mem Node.id hmemt)
      simp only [resultsOf, List.filterMap_cons]
      cases hf : f n with
      | none => exact ih hmemt hnd
      | some r =>
        have hb : (node.id == n.id) = false := by simpa using hne
        simp only [Option.map_some', List.lookup_cons, hb]
        exact ih hmemt hnd

lemma mergeStatus_not_mem {α : Type} (status : StatusMap α)
    (results : List (String × α)) (ids : List String) (id : String)
    (h : id ∉ ids) : mergeStatus status results ids id = none := by
  simp [mergeStatus, pruneAbsent, h]

lemma mergeStatus_mem {α : Type} (status : StatusMap α)
    (results : List (String × α)) (ids : List String) (id : String)
    (h : id ∈ ids) :
    mergeStatus status results ids id =
      match results.lookup id with
      | some r => some r
      | none => status id := by
  simp [mergeStatus, pruneAbsent, insertResults, h]

lemma effectiveIntervalSec_pos (node : Node) (fallback : Int) :
    0 < effectiveIntervalSec node fallback := by
  unfold effectiveIntervalSec
  split_ifs <;> omega

lemma intervalForNode_eq_of_bound (node : Node) (fallback : Int)
    (hbound : effectiveIntervalSec node fallback ≤ 9223372036) :
    intervalForNode node fallback =
      effectiveIntervalSec node fallback * 1000000000 := by
  unfold intervalForNode effectiveIntervalSec defaultMonitoringSettings wrap64 at *
  dsimp only
  split_ifs at * <;> omega

lemma parseRTT_nonneg (output : String) : 0 ≤ parseRTT output := by
  unfold parseRTT
  split
  · exact le_refl 0
  · split
    · exact le_refl 0
    · exact Int.natCast_nonneg _

lemma runPingCycle_lookup (snapshot : StatusMap PingResult) (nodes : List Node)
    (settings : MonitoringSettings) (now : Int) (probe : String → PingResult)
    (node : Node) (hmem : node ∈ nodes) (hnodup : (nodes.map Node.id).Nodup) :
    runPingCycle snapshot nodes settings now probe node.id =
      match nodeCycleResult snapshot node settings.intervalSec now probe with
      | some r => some r
      | none => snapshot node.id := by
  have hm : node.id ∈ nodes.map Node.id := List.mem_map_of_mem _ hmem
  have hl : (cycleResults snapshot nodes settings.intervalSec now probe).lookup node.id
      = nodeCycleResult snapshot node settings.intervalSec now probe :=
    lookup_resultsOf_mem
      (fun n => nodeCycleResult snapshot n settings.intervalSec now probe)
      nodes node hmem hnodup
  unfold runPingCycle
  rw [mergeStatus_mem _ _ _ _ hm, hl]
  cases nodeCycleResult snapshot node settings.intervalSec now probe <;> rfl


lemma runCheck_lookup (status : StatusMap SSHStatus)
    (provider : Option (String → Except String (Option DeviceSettings)))
    (checkConnection : DeviceSettings → Except String Unit) (now : Int)
    (nodes : List Node) (node : Node) (hmem : node ∈ nodes)
    (hnodup : (nodes.map Node.id).Nodup) :
    runCheck status provider checkConnection now nodes node.id =
      match (if node.type = "network" || !node.connectEnabled then none
             else some (checkNode provider checkConnection now node)) with
      | some r => some r
      | none => status node.id := by
  have hm : node.id ∈ nodes.map Node.id := List.mem_map_of_mem _ hmem
  have hl : (runCheckResults provider checkConnection now nodes).lookup node.id
      = (if node.type = "network" || !node.connectEnabled then none
         else some (checkNode provider checkConnection now node)) :=
    lookup_resultsOf_mem
      (fun n => if n.type = "network" || !n.connectEnabled then none
                else some (checkNode provider checkConnection now n))
      nodes node hmem hnodup
  unfold runCheck
  rw [mergeStatus_mem _ _ _ _ hm, hl]
  cases (if node.type = "network" || !node.connectEnabled then none
         else some (checkNode provider checkConnection now node)) <;> rfl

lemma mem_resultsOf {α : Type} (f : Node → Option α) (nodes : List Node)
    (node : Node) (r : α) (hmem : node ∈ nodes) (hf : f node = some r) :
    (node.id, r) ∈ resultsOf f nodes := by
  induction nodes with
  | nil => cases hmem
  | cons n t ih =>
    rcases List.mem_cons.mp hmem with heq | hmemt
    · subst heq
      simp [resultsOf, List.filterMap_cons, hf]
    · simp only [resultsOf, List.filterMap_cons]
      cases f n with
      | none => exact ih hmemt
      | some r2 => exact List.mem_cons_of_mem _ (ih hmemt)

lemma countP_set_le {α : Type} (p : α → Bool) (l : List α) (i : Nat) (b : α)
    (hb : p b = false) : (l.set i b).countP p ≤ l.countP p := by
  induction l generalizing i with
  | nil => simp
  | cons a t ih =>
    cases i with
    | zero =>
      cases hpa : p a <;> simp [List.countP_cons, hb, hpa]
    | succ j =>
      simp only [List.set, List.countP_cons]
      exact Nat.add_le_add_right (ih j) _

lemma countP_set_le_succ {α : Type} (p : α → Bool) (l : List α) (i : Nat)
    (b : α) : (l.set i b).countP p ≤ l.countP p + 1 := by
  induction l generalizing i with
  | nil => simp
  | cons a t ih =>
    cases i with
    | zero =>
      simp only [List.set, List.countP_cons]
      split_ifs <;> omega
    | succ j =>
      simp only [List.set, List.countP_cons]
      have := ih j
      omega

lemma runningCount_replicate (n : Nat) :
    runningCount (List.replicate n Phase.pending) = 0 := by
  induction n with
  | zero => rfl
  | succ k ih =>
    unfold runningCount at *
    simp [List.replicate_succ, List.countP_cons, ih]

lemma semStep_bound {cap : Nat} {ws ws2 : List Phase} (h : SemStep cap ws ws2)
    (hb : runningCount ws ≤ cap) : runningCount ws2 ≤ cap := by
  cases h with
  | acquire i hi hc =>
    have hle := countP_set_le_succ (fun w => w = Phase.running) ws i Phase.running
    unfold runningCount at *
    omega
  | release i hi =>
    have hle := countP_set_le (fun w => w = Phase.running) ws i Phase.done (by decide)
    unfold runningCount at *
    omega

lemma semReachable_bound (cap n : Nat) (ws : List Phase)
    (h : SemReachable cap n ws) : runningCount ws ≤ cap := by
  unfold SemReachable at h
  induction h with
  | refl => rw [runningCount_replicate]; exact Nat.zero_le cap
  | tail _hsteps hstep ih => exact semStep_bound hstep ih

/-! ### Claim theorems -/

/-- C1: the interval stored by `sanitizeMonitoringSettings` (hence by
`SetSettings`/`UpdateFromBoard`) is 30 when the input `intervalSec` is 0
or any value outside [5, 3600] — reset to the default, not clamped to
the nearer bound — and unchanged when the input is within [5, 3600]. -/
theorem interval_sanitization_reset (s : MonitoringSettings) :
    ((s.intervalSec < 5 ∨ 3600 < s.intervalSec) →
      (sanitizeMonitoringSettings s).intervalSec = 30) ∧
    (5 ≤ s.intervalSec → s.intervalSec ≤ 3600 →
      (sanitizeMonitoringSettings s).intervalSec = s.intervalSec) := by
  unfold sanitizeMonitoringSettings defaultMonitoringSettings
  dsimp only
  constructor
  · intro h
    split_ifs <;> simp_all
  · intro h1 h2
    split_ifs <;> simp_all
    omega

/-- Witness for C1 at the spec's three probe inputs 0, 4 and 120, plus
3601 on the high side. -/
theorem interval_sanitization_reset_witness :
    (sanitizeMonitoringSettings ⟨false, 0, false⟩).intervalSec = 30 ∧
    (sanitizeMonitoringSettings ⟨false, 4, false⟩).intervalSec = 30 ∧
    (sanitizeMonitoringSettings ⟨false, 3601, false⟩).intervalSec = 30 ∧
    (sanitizeMonitoringSettings ⟨false, 120, false⟩).intervalSec = 120 :=
  ⟨(interval_sanitization_reset ⟨false, 0, false⟩).1 (Or.inl (by norm_num)),
   (interval_sanitization_reset ⟨false, 4, false⟩).1 (Or.inl (by norm_num)),
   (interval_sanitization_reset ⟨false, 3601, false⟩).1 (Or.inr (by norm_num)),
   (interval_sanitization_reset ⟨false, 120, false⟩).2 (by norm_num) (by norm_num)⟩

/-- C2: after each mutation entry point (`UpdateFromBoard`,
`UpdateNodes`, `SetSettings`) the stored `enabled` flag equals
`anyPingEnabled` of the stored target set (a nil `PingEnabled` counting
as disabled); in particular `SetSettings` with `enabled = true` while no
target has ping enabled leaves the flag false — the caller-supplied
value is always overridden. -/
theorem enabled_flag_recomputed (st : PingManagerState) (board : Board)
    (nodes : List Node) (s : MonitoringSettings) :
    (updateFromBoard st board).settings.enabled =
        anyPingEnabled (updateFromBoard st board).nodes ∧
    (updateNodes st nodes).settings.enabled =
        anyPingEnabled (updateNodes st nodes).nodes ∧
    (setSettings st s).settings.enabled =
        anyPingEnabled (setSettings st s).nodes ∧
    (anyPingEnabled st.nodes = false →
      (setSettings st { s with enabled := true }).settings.enabled = false) := by
  refine ⟨rfl, rfl, rfl, fun h => ?_⟩
  simp [setSettings, h]

/-- Witness for C2: a state whose one target has ping disabled; asking
for `enabled = true` is overridden to false. -/
theorem enabled_flag_recomputed_witness :
    (setSettings
        { settings := defaultMonitoringSettings,
          nodes := [{ id := "a", type := "device", ipPrivate := "",
                      ipTailscale := "", ipPublic := "", pingEnabled := some false,
                      pingIntervalSec := 0, connectEnabled := false }] }
        { enabled := true, intervalSec := 120, showStatus := true }).settings.enabled
      = false :=
  (enabled_flag_recomputed
      { settings := defaultMonitoringSettings,
        nodes := [{ id := "a", type := "device", ipPrivate := "",
                    ipTailscale := "", ipPublic := "", pingEnabled := some false,
                    pingIntervalSec := 0, connectEnabled := false }] }
      ⟨⟨defaultMonitoringSettings⟩, []⟩ []
      { enabled := true, intervalSec := 120, showStatus := true }).2.2.2 (by decide)

/-- C8: the wake-signal post never blocks (it is a total function of the
slot), the single slot never holds more than one signal (its state space
is `Bool`), posting into an empty slot stores the signal, posting into a
full slot is a no-op, and posting twice leaves the same state as posting
once. -/
theorem wake_signal_coalesces :
    signalUpdate false = true ∧ signalUpdate true = true ∧
    ∀ pending, signalUpdate (signalUpdate pending) = signalUpdate pending :=
  ⟨rfl, rfl, fun pending => by cases pending <;> rfl⟩

/-- C3: in both pollers, for every device id absent from the target-set
snapshot a cycle starts from, the cache after that cycle's merge has no
entry under that id — the merge deletes every such entry, and a result
cannot survive it. -/
theorem removed_device_pruned (nodes : List Node) (id : String)
    (h : id ∉ nodes.map Node.id) :
    (∀ (status : StatusMap PingResult) (settings : MonitoringSettings)
        (now : Int) (probe : String → PingResult),
        runPingCycle status nodes settings now probe id = none) ∧
    (∀ (status : StatusMap SSHStatus)
        (provider : Option (String → Except String (Option DeviceSettings)))
        (checkConnection : DeviceSettings → Except String Unit) (now : Int),
        runCheck status provider checkConnection now nodes id = none) :=
  ⟨fun status _settings _now _probe => mergeStatus_not_mem status _ _ id h,
   fun status _provider _cc _now => mergeStatus_not_mem status _ _ id h⟩

/-- Witness for C3: caches holding an entry for `"gone"` while the
cycle's snapshot only contains device `"a"`; both merges delete it. -/
theorem removed_device_pruned_witness :
    runPingCycle (fun _ => some (noIpResult 0))
      [{ id := "a", type := "device", ipPrivate := "", ipTailscale := "",
         ipPublic := "", pingEnabled := some true, pingIntervalSec := 0,
         connectEnabled := false }]
      defaultMonitoringSettings 0 (fun _ => noIpResult 0) "gone" = none ∧
    runCheck (fun _ => some { online := false, lastChecked := 0, error := "" })
      none (fun _ => .ok ()) 0
      [{ id := "a", type := "device", ipPrivate := "", ipTailscale := "",
         ipPublic := "", pingEnabled := some true, pingIntervalSec := 0,
         connectEnabled := true }] "gone" = none :=
  ⟨(removed_device_pruned _ "gone" (by decide)).1 _ _ _ _,
   (removed_device_pruned _ "gone" (by decide)).2 _ _ _ _⟩

/-- C4 counterexample: the claim's throttle guarantee fails at an
overflowing interval override. Device `"a"` carries
`pingIntervalSec = 9999999999`; the claim's effective interval is
9999999999 seconds, and the cycle runs 5 seconds (5·10^9 ns) after the
prior result's timestamp 0, so the claim demands a skip with the entry
retained. But `time.Duration(9999999999) * time.Second` wraps to the
negative −8446744074709551616, the `interval > 0` guard fails, the
throttle is bypassed, and the cycle probes the device and overwrites its
entry with the fresh probe result. -/
theorem throttle_overflow_counterexample :
    effectiveIntervalSec
      { id := "a", type := "device", ipPrivate := "", ipTailscale := "",
        ipPublic := "10.0.0.1", pingEnabled := some true,
        pingIntervalSec := 9999999999, connectEnabled := false } 30 =
      9999999999 ∧
    (5 * 1000000000 - (0 : Int)) < 9999999999 * 1000000000 ∧
    intervalForNode
      { id := "a", type := "device", ipPrivate := "", ipTailscale := "",
        ipPublic := "10.0.0.1", pingEnabled := some true,
        pingIntervalSec := 9999999999, connectEnabled := false } 30 =
      -8446744074709551616 ∧
    isThrottled
      (fun id => if id = "a" then
        some { online := true, lastChecked := 0, rttMs := 1,
               target := "10.0.0.1", error := "" } else none)
      { id := "a", type := "device", ipPrivate := "", ipTailscale := "",
        ipPublic := "10.0.0.1", pingEnabled := some true,
        pingIntervalSec := 9999999999, connectEnabled := false }
      30 (5 * 1000000000) = false ∧
    cycleAction
      (fun id => if id = "a" then
        some { online := true, lastChecked := 0, rttMs := 1,
               target := "10.0.0.1", error := "" } else none)
      { id := "a", type := "device", ipPrivate := "", ipTailscale := "",
        ipPublic := "10.0.0.1", pingEnabled := some true,
        pingIntervalSec := 9999999999, connectEnabled := false }
      30 (5 * 1000000000) = .probe "10.0.0.1" ∧
    runPingCycle
      (fun id => if id = "a" then
        some { online := true, lastChecked := 0, rttMs := 1,
               target := "10.0.0.1", error := "" } else none)
      [{ id := "a", type := "device", ipPrivate := "", ipTailscale := "",
         ipPublic := "10.0.0.1", pingEnabled := some true,
         pingIntervalSec := 9999999999, connectEnabled := false }]
      { enabled := true, intervalSec := 30, showStatus := false }
      (5 * 1000000000)
      (fun target => { online := false, lastChecked := 5 * 1000000000,
                       rttMs := 0, target := target, error := "unreachable" })
      "a" =
      some { online := false, lastChecked := 5 * 1000000000, rttMs := 0,
             target := "10.0.0.1", error := "unreachable" } ∧
    some ({ online := false, lastChecked := 5 * 1000000000, rttMs := 0,
            target := "10.0.0.1", error := "unreachable" } : PingResult) ≠
      some { online := true, lastChecked := 0, rttMs := 1,
             target := "10.0.0.1", error := "" } := by
  refine ⟨by decide, by decide, by decide, by decide, by decide, by decide,
    by decide⟩

/-- C4 (amended): a non-segment, ping-enabled device with a prior cached
result timestamped `last.lastChecked`, whose effective interval in
seconds (device override if positive, else policy interval, else the
30-second default) is at most 9223372036 — so that the conversion to a
nanosecond `time.Duration` does not overflow `int64` — probed again at
`now` with `now − last.lastChecked` below that interval, is skipped by
the cycle: no probe is issued, `cycleAction` is `.skip`, and the merge
leaves its cache entry exactly the prior result, timestamp included.
(For larger overrides the converted duration wraps; a negative wrap
disables the throttle and the device is re-probed.) -/
theorem throttled_device_retains_result (snapshot : StatusMap PingResult)
    (nodes : List Node) (settings : MonitoringSettings) (now : Int)
    (probe : String → PingResult) (node : Node) (last : PingResult)
    (hmem : node ∈ nodes) (hnodup : (nodes.map Node.id).Nodup)
    (htype : node.type ≠ "network") (hen : isPingEnabled node = true)
    (hlast : snapshot node.id = some last)
    (hbound : effectiveIntervalSec node settings.intervalSec ≤ 9223372036)
    (hearly : now - last.lastChecked <
      effectiveIntervalSec node settings.intervalSec * 1000000000) :
    intervalForNode node settings.intervalSec =
      effectiveIntervalSec node settings.intervalSec * 1000000000 ∧
    cycleAction snapshot node settings.intervalSec now = .skip ∧
    runPingCycle snapshot nodes settings now probe node.id = some last := by
  have hiv : intervalForNode node settings.intervalSec =
      effectiveIntervalSec node settings.intervalSec * 1000000000 :=
    intervalForNode_eq_of_bound node settings.intervalSec hbound
  have hpos : 0 < intervalForNode node settings.intervalSec := by
    rw [hiv]
    have := effectiveIntervalSec_pos node settings.intervalSec
    omega
  have hthr : isThrottled snapshot node settings.intervalSec now = true := by
    unfold isThrottled
    rw [hlast]
    simp only [Bool.and_eq_true, decide_eq_true_eq]
    exact ⟨hpos, by rw [hiv]; exact hearly⟩
  have hskip : cycleAction snapshot node settings.intervalSec now = .skip := by
    unfold cycleAction
    simp [htype, hen, hthr]
  refine ⟨hiv, hskip, ?_⟩
  rw [runPingCycle_lookup snapshot nodes settings now probe node hmem hnodup]
  simp [nodeCycleResult, hskip, hlast]

/-- Witness for C4: device `"a"` with a 60-second override, last checked
at 100·10^9 ns, cycle at 130·10^9 ns — 30 s < 60 s and 60 is far below
the overflow bound, so the prior result (with its timestamp) survives
verbatim. -/
theorem throttled_device_retains_result_witness :
    runPingCycle
      (fun id => if id = "a" then
        some { online := true, lastChecked := 100 * 1000000000, rttMs := 5,
               target := "10.0.0.1", error := "" } else none)
      [{ id := "a", type := "device", ipPrivate := "", ipTailscale := "",
         ipPublic := "10.0.0.1", pingEnabled := some true,
         pingIntervalSec := 60, connectEnabled := false }]
      { enabled := true, intervalSec := 30, showStatus := false }
      (130 * 1000000000) (fun _ => noIpResult 0) "a" =
      some { online := true, lastChecked := 100 * 1000000000, rttMs := 5,
             target := "10.0.0.1", error := "" } :=
  (throttled_device_retains_result
      (fun id => if id = "a" then
        some { online := true, lastChecked := 100 * 1000000000, rttMs := 5,
               target := "10.0.0.1", error := "" } else none)
      [{ id := "a", type := "device", ipPrivate := "", ipTailscale := "",
         ipPublic := "10.0.0.1", pingEnabled := some true,
         pingIntervalSec := 60, connectEnabled := false }]
      { enabled := true, intervalSec := 30, showStatus := false }
      (130 * 1000000000) (fun _ => noIpResult 0)
      { id := "a", type := "device", ipPrivate := "", ipTailscale := "",
         ipPublic := "10.0.0.1", pingEnabled := some true,
         pingIntervalSec := 60, connectEnabled := false }
      { online := true, lastChecked := 100 * 1000000000, rttMs := 5,
               target := "10.0.0.1", error := "" }
      (by decide) (by decide) (by decide) (by decide) (by decide)
      (by decide) (by decide)).2.2

/-- C5: a non-segment, ping-enabled, non-throttled device whose three
candidate addresses are all empty gets, without a probe being spawned
(the cycle decision is `.noIp`, not `.probe`), the synthesized cache
entry `{online := false, error := "no ip", rttMs := 0, target := ""}`
with the cycle's timestamp, and contributes exactly one warning log
line. -/
theorem no_ip_synthesized_result (snapshot : StatusMap PingResult)
    (nodes : List Node) (settings : MonitoringSettings) (now : Int)
    (probe : String → PingResult) (node : Node)
    (hmem : node ∈ nodes) (hnodup : (nodes.map Node.id).Nodup)
    (htype : node.type ≠ "network") (hen : isPingEnabled node = true)
    (hthr : isThrottled snapshot node settings.intervalSec now = false)
    (hpub : node.ipPublic = "") (hpriv : node.ipPrivate = "")
    (hts : node.ipTailscale = "") :
    cycleAction snapshot node settings.intervalSec now = .noIp ∧
    runPingCycle snapshot nodes settings now probe node.id =
      some { online := false, lastChecked := now, rttMs := 0,
             target := "", error := "no ip" } ∧
    nodeCycleLogs snapshot node settings.intervalSec now probe =
      [("warn", "ping", "ping skipped for " ++ node.id ++ ": no ip")] := by
  have htarget : pickTarget node = "" := by
    simp [pickTarget, hpub, hpriv, hts]
  have hact : cycleAction snapshot node settings.intervalSec now = .noIp := by
    unfold cycleAction
    simp [htype, hen, hthr, htarget]
  refine ⟨hact, ?_, ?_⟩
  · rw [runPingCycle_lookup snapshot nodes settings now probe node hmem hnodup]
    simp [nodeCycleResult, hact, noIpResult]
  · unfold nodeCycleLogs
    rw [hact]

/-- Witness for C5: device `"a"` with no addresses and an empty cache;
one cycle synthesizes the "no ip" entry and one warning line. -/
theorem no_ip_synthesized_result_witness :
    runPingCycle (fun _ => none)
      [{ id := "a", type := "device", ipPrivate := "", ipTailscale := "",
         ipPublic := "", pingEnabled := some true, pingIntervalSec := 0,
         connectEnabled := false }]
      defaultMonitoringSettings 42 (fun _ => noIpResult 0) "a" =
      some { online := false, lastChecked := 42, rttMs := 0,
             target := "", error := "no ip" } ∧
    nodeCycleLogs (fun _ => none)
      { id := "a", type := "device", ipPrivate := "", ipTailscale := "",
        ipPublic := "", pingEnabled := some true, pingIntervalSec := 0,
        connectEnabled := false }
      defaultMonitoringSettings.intervalSec 42 (fun _ => noIpResult 0) =
      [("warn", "ping", "ping skipped for a: no ip")] :=
  ⟨(no_ip_synthesized_result (fun _ => none)
      [{ id := "a", type := "device", ipPrivate := "", ipTailscale := "",
         ipPublic := "", pingEnabled := some true, pingIntervalSec := 0,
         connectEnabled := false }]
      defaultMonitoringSettings 42 (fun _ => noIpResult 0)
      { id := "a", type := "device", ipPrivate := "", ipTailscale := "",
         ipPublic := "", pingEnabled := some true, pingIntervalSec := 0,
         connectEnabled := false }
      (by decide) (by decide) (by decide) (by decide) (by decide)
      (by decide) (by decide) (by decide)).2.1,
   (no_ip_synthesized_result (fun _ => none)
      [{ id := "a", type := "device", ipPrivate := "", ipTailscale := "",
         ipPublic := "", pingEnabled := some true, pingIntervalSec := 0,
         connectEnabled := false }]
      defaultMonitoringSettings 42 (fun _ => noIpResult 0)
      { id := "a", type := "device", ipPrivate := "", ipTailscale := "",
         ipPublic := "", pingEnabled := some true, pingIntervalSec := 0,
         connectEnabled := false }
      (by decide) (by decide) (by decide) (by decide) (by decide)
      (by decide) (by decide) (by decide)).2.2⟩

/-- C10: in both pollers' merge, an entry whose id is still in the
cycle's snapshot is never deleted — if the cycle produced no new result
for it, the prior result is retained unchanged; an entry is removed only
when its id is absent from the snapshot. In the ping cycle this covers
network segments, disabled devices and throttled devices, which all
contribute no result. -/
theorem merge_frame_retention :
    (∀ (α : Type) (status : StatusMap α) (results : List (String × α))
        (ids : List String) (id : String), id ∈ ids →
        results.lookup id = none → mergeStatus status results ids id = status id) ∧
    (∀ (α : Type) (status : StatusMap α) (results : List (String × α))
        (ids : List String) (id : String) (r : α), status id = some r →
        mergeStatus status results ids id = none → id ∉ ids) ∧
    (∀ (snapshot : StatusMap PingResult) (nodes : List Node)
        (settings : MonitoringSettings) (now : Int)
        (probe : String → PingResult) (node : Node), node ∈ nodes →
        (nodes.map Node.id).Nodup →
        (node.type = "network" ∨ isPingEnabled node = false ∨
          isThrottled snapshot node settings.intervalSec now = true) →
        runPingCycle snapshot nodes settings now probe node.id =
          snapshot node.id) ∧
    (∀ (status : StatusMap SSHStatus)
        (provider : Option (String → Except String (Option DeviceSettings)))
        (checkConnection : DeviceSettings → Except String Unit) (now : Int)
        (nodes : List Node) (node : Node), node ∈ nodes →
        (nodes.map Node.id).Nodup →
        (node.type = "network" ∨ node.connectEnabled = false) →
        runCheck status provider checkConnection now nodes node.id =
          status node.id) := by
  refine ⟨?_, ?_, ?_, ?_⟩
  · intro α status results ids id hmem hl
    rw [mergeStatus_mem status results ids id hmem, hl]
  · intro α status results ids id r hsome hnone hmem
    rw [mergeStatus_mem status results ids id hmem] at hnone
    cases hl : results.lookup id <;> rw [hl] at hnone
    · rw [hsome] at hnone
      cases hnone
    · cases hnone
  · intro snapshot nodes settings now probe node hmem hnodup hskip
    have hact : cycleAction snapshot node settings.intervalSec now = .skip := by
      unfold cycleAction
      rcases hskip with h | h | h <;> simp [h]
    rw [runPingCycle_lookup snapshot nodes settings now probe node hmem hnodup]
    simp [nodeCycleResult, hact]
  · intro status provider checkConnection now nodes node hmem hnodup hskip
    rw [runCheck_lookup status provider checkConnection now nodes node hmem hnodup]
    rcases hskip with h | h <;> simp [h]

/-- Witness for C10: a throttled device (checked at 100, cycle at 101)
and a connect-disabled device both keep their prior entries. -/
theorem merge_frame_retention_witness :
    runPingCycle
      (fun id => if id = "a" then
        some { online := true, lastChecked := 100, rttMs := 2,
               target := "10.0.0.9", error := "" } else none)
      [{ id := "a", type := "device", ipPrivate := "", ipTailscale := "",
         ipPublic := "10.0.0.9", pingEnabled := some true,
         pingIntervalSec := 0, connectEnabled := false }]
      defaultMonitoringSettings 101 (fun _ => noIpResult 0) "a" =
      some { online := true, lastChecked := 100, rttMs := 2,
             target := "10.0.0.9", error := "" } ∧
    runCheck
      (fun id => if id = "b" then
        some { online := true, lastChecked := 7, error := "" } else none)
      none (fun _ => .ok ()) 50
      [{ id := "b", type := "device", ipPrivate := "", ipTailscale := "",
         ipPublic := "", pingEnabled := none, pingIntervalSec := 0,
         connectEnabled := false }]
      "b" = some { online := true, lastChecked := 7, error := "" } :=
  ⟨merge_frame_retention.2.2.1
      (fun id => if id = "a" then
        some { online := true, lastChecked := 100, rttMs := 2,
               target := "10.0.0.9", error := "" } else none)
      [{ id := "a", type := "device", ipPrivate := "", ipTailscale := "",
         ipPublic := "10.0.0.9", pingEnabled := some true,
         pingIntervalSec := 0, connectEnabled := false }]
      defaultMonitoringSettings 101 (fun _ => noIpResult 0)
      { id := "a", type := "device", ipPrivate := "", ipTailscale := "",
         ipPublic := "10.0.0.9", pingEnabled := some true,
         pingIntervalSec := 0, connectEnabled := false }
      (by decide) (by decide) (Or.inr (Or.inr (by decide))),
   merge_frame_retention.2.2.2
      (fun id => if id = "b" then
        some { online := true, lastChecked := 7, error := "" } else none)
      none (fun _ => .ok ()) 50
      [{ id := "b", type := "device", ipPrivate := "", ipTailscale := "",
         ipPublic := "", pingEnabled := none, pingIntervalSec := 0,
         connectEnabled := false }]
      { id := "b", type := "device", ipPrivate := "", ipTailscale := "",
         ipPublic := "", pingEnabled := none, pingIntervalSec := 0,
         connectEnabled := false }
      (by decide) (by decide) (Or.inr (by decide))⟩

/-- C6 counterexample: the claim says rttMs equals the RTT extracted
from the probe output in every case, but on a timed-out probe whose
partial output does contain a `time=...ms` match, `pingTarget` returns
before extraction and reports `rttMs = 0`, not the extracted 5. -/
theorem rtt_timeout_counterexample :
    parseRTT "time=5 ms" = 5 ∧
    (pingTarget 0 "192.0.2.1" true true "time=5 ms").rttMs = 0 ∧
    (pingTarget 0 "192.0.2.1" true true "time=5 ms").rttMs ≠
      parseRTT "time=5 ms" := by
  refine ⟨by decide, rfl, by decide⟩

/-- C6 (amended): the probe result is classified three ways — deadline
expiry gives `online = false`, `error = "timeout"` (and `rttMs = 0`,
since the function returns before RTT extraction); command success gives
`online = true` with empty error; any other failure gives
`online = false`, `error = "unreachable"` — and in the two non-timeout
cases `rttMs` equals the RTT extracted by the first `time[=<]number ms`
match of the output, parsed as a decimal number and rounded to the
nearest millisecond, 0 when absent or unparseable (all of which is
`parseRTT`). -/
theorem probe_classification_amended (start : Int) (target : String)
    (timedOut cmdErr : Bool) (output : String) :
    pingTarget start target timedOut cmdErr output =
      if timedOut then
        { online := false, lastChecked := start, rttMs := 0,
          target := target, error := "timeout" }
      else if cmdErr then
        { online := false, lastChecked := start, rttMs := parseRTT output,
          target := target, error := "unreachable" }
      else
        { online := true, lastChecked := start, rttMs := parseRTT output,
          target := target, error := "" } := by
  have h0 : ¬ 0 < parseRTT output → parseRTT output = 0 := fun h =>
    le_antisymm (not_lt.mp h) (parseRTT_nonneg output)
  cases timedOut with
  | true => simp [pingTarget]
  | false =>
    cases cmdErr with
    | true =>
      by_cases hr : 0 < parseRTT output
      · simp [pingTarget, hr]
      · simp [pingTarget, hr, h0 hr]
    | false =>
      by_cases hr : 0 < parseRTT output
      · simp [pingTarget, hr]
      · simp [pingTarget, hr, h0 hr]

/-- C7: per-device liveness failure handling — a resolver error surfaces
verbatim as that device's error string; not-found gives "settings not
found"; an empty resolved host falls back to the device's own addresses
(public, then private, then overlay) before the connection check; a
device's outcome depends only on the resolver's answer for its own id;
and every eligible device still receives its entry in the cycle's
results, so one device's failure never halts the loop or the other
probes. -/
theorem liveness_failure_isolation
    (get : String → Except String (Option DeviceSettings))
    (checkConnection : DeviceSettings → Except String Unit) (now : Int)
    (node : Node) (nodes : List Node) (e : String) (s : DeviceSettings) :
    (get node.id = .error e →
      checkNode (some get) checkConnection now node =
        { online := false, lastChecked := now, error := e }) ∧
    (get node.id = .ok none →
      checkNode (some get) checkConnection now node =
        { online := false, lastChecked := now, error := "settings not found" }) ∧
    (get node.id = .ok (some s) → s.host = "" →
      checkNode (some get) checkConnection now node =
        (match checkConnection { s with host := pickTarget node } with
         | .error msg => { online := false, lastChecked := now, error := msg }
         | .ok _ => { online := true, lastChecked := now, error := "" })) ∧
    (∀ get2 : String → Except String (Option DeviceSettings),
      get node.id = get2 node.id →
      checkNode (some get) checkConnection now node =
        checkNode (some get2) checkConnection now node) ∧
    (node ∈ nodes → node.type ≠ "network" → node.connectEnabled = true →
      (node.id, checkNode (some get) checkConnection now node) ∈
        runCheckResults (some get) checkConnection now nodes) := by
  refine ⟨?_, ?_, ?_, ?_, ?_⟩
  · intro h
    simp [checkNode, h]
  · intro h
    simp [checkNode, h]
  · intro h hh
    cases hcc : checkConnection { s with host := pickTarget node } <;>
      simp [checkNode, h, hh, hcc]
  · intro get2 hg
    simp only [checkNode]
    rw [hg]
  · intro hmem htype hconn
    exact mem_resultsOf _ nodes node _ hmem (by simp [htype, hconn])

/-- Witness for C7: a resolver erroring with "boom" for device `"a"`
yields exactly that error string in the device's status, and the device
still appears in the cycle's results list. -/
theorem liveness_failure_isolation_witness :
    checkNode
      (some fun id => if id = "a" then .error "boom" else .ok none)
      (fun _ => .ok ()) 9
      { id := "a", type := "device", ipPrivate := "", ipTailscale := "",
        ipPublic := "", pingEnabled := none, pingIntervalSec := 0,
        connectEnabled := true } =
      { online := false, lastChecked := 9, error := "boom" } ∧
    ("a", checkNode
      (some fun id => if id = "a" then .error "boom" else .ok none)
      (fun _ => .ok ()) 9
      { id := "a", type := "device", ipPrivate := "", ipTailscale := "",
        ipPublic := "", pingEnabled := none, pingIntervalSec := 0,
        connectEnabled := true }) ∈
      runCheckResults
        (some fun id => if id = "a" then .error "boom" else .ok none)
        (fun _ => .ok ()) 9
        [{ id := "a", type := "device", ipPrivate := "", ipTailscale := "",
           ipPublic := "", pingEnabled := none, pingIntervalSec := 0,
           connectEnabled := true }] :=
  ⟨(liveness_failure_isolation
      (fun id => if id = "a" then .error "boom" else .ok none)
      (fun _ => .ok ()) 9
      { id := "a", type := "device", ipPrivate := "", ipTailscale := "",
        ipPublic := "", pingEnabled := none, pingIntervalSec := 0,
        connectEnabled := true } [] "boom"
      { os := "", host := "", port := 0, authMethod := "", username := "",
        password := "", privateKey := "", privateKeyPassphrase := "",
        connectEnabled := false, linkSpeedMbps := 0 }).1 rfl,
   (liveness_failure_isolation
      (fun id => if id = "a" then .error "boom" else .ok none)
      (fun _ => .ok ()) 9
      { id := "a", type := "device", ipPrivate := "", ipTailscale := "",
        ipPublic := "", pingEnabled := none, pingIntervalSec := 0,
        connectEnabled := true }
      [{ id := "a", type := "device", ipPrivate := "", ipTailscale := "",
         ipPublic := "", pingEnabled := none, pingIntervalSec := 0,
         connectEnabled := true }] "boom"
      { os := "", host := "", port := 0, authMethod := "", username := "",
        password := "", privateKey := "", privateKeyPassphrase := "",
        connectEnabled := false, linkSpeedMbps := 0 }).2.2.2.2
      (by decide) (by decide) (by decide)⟩

/-- C9: the ping cycle's semaphore has capacity 8 and the SSH cycle's
capacity 6, and in every state reachable by any interleaving of any
number of fanned-out probe goroutines, at most that many goroutines hold
a token (are executing their probe I/O) at once. -/
theorem fanout_concurrency_bound :
    pingSemCap = 8 ∧ sshSemCap = 6 ∧
    (∀ (n : Nat) (ws : List Phase), SemReachable pingSemCap n ws →
      runningCount ws ≤ pingSemCap) ∧
    (∀ (n : Nat) (ws : List Phase), SemReachable sshSemCap n ws →
      runningCount ws ≤ sshSemCap) :=
  ⟨rfl, rfl,
   fun n ws h => semReachable_bound pingSemCap n ws h,
   fun n ws h => semReachable_bound sshSemCap n ws h⟩

/-- Witness for C9: a fan-out of 2 goroutines after one acquire step
stays within the ping bound; a fresh fan-out of 20 is within the SSH
bound. -/
theorem fanout_concurrency_bound_witness :
    runningCount [Phase.running, Phase.pending] ≤ pingSemCap ∧
    runningCount (List.replicate 20 Phase.pending) ≤ sshSemCap :=
  ⟨fanout_concurrency_bound.2.2.1 2 [Phase.running, Phase.pending]
      (Relation.ReflTransGen.single
        (SemStep.acquire (List.replicate 2 Phase.pending) 0
          (by decide) (by decide))),
   fanout_concurrency_bound.2.2.2 20 (List.replicate 20 Phase.pending)
      Relation.ReflTransGen.refl⟩

end InfraMap
